import Mathlib

/-!
Verification of the Scriberr transcription engine specification against the
repository's Go sources. Pure Go functions are embedded as Lean functions;
stateful operations are embedded as explicit state-passing functions.
Components of the engine whose code is not present in the repository snapshot
(the cancellation controller, merge coordinator, progress tracker and worker
claim logic) are modelled from the specification text, as marked on each
definition.
-/

namespace Scriberr

/-! ## Platform process-group setup
Embedding of internal/transcription/sysproc_linux.go, sysproc_darwin.go and
sysproc_windows.go. A Go `*exec.Cmd` is modelled by its observable fields:
the program path, the argument list and the optional `SysProcAttr`. -/

/-- Embedding of the relevant part of Go's `syscall.SysProcAttr`: the
`Setpgid` flag that places the spawned process in its own process group. -/
structure SysProcAttr where
  setpgid : Bool
deriving DecidableEq, Repr

/-- Embedding of Go's `exec.Cmd`: program path, arguments, and the optional
system process attributes (`nil` in Go is `none` here). -/
structure Cmd where
  path : String
  args : List String
  sysProcAttr : Option SysProcAttr
deriving DecidableEq, Repr

/-- Embedding of `ConfigureCmdSysProcAttr` from sysproc_linux.go: sets
`cmd.SysProcAttr = &syscall.SysProcAttr{Setpgid: true}`. -/
def configureCmdSysProcAttrLinux (cmd : Cmd) : Cmd :=
  { cmd with sysProcAttr := some { setpgid := true } }

/-- Embedding of `ConfigureCmdSysProcAttr` from sysproc_darwin.go: sets
`cmd.SysProcAttr = &syscall.SysProcAttr{Setpgid: true}`. -/
def configureCmdSysProcAttrDarwin (cmd : Cmd) : Cmd :=
  { cmd with sysProcAttr := some { setpgid := true } }

/-- Embedding of `ConfigureCmdSysProcAttr` from sysproc_windows.go: the body
is empty, so the command is returned unchanged. -/
def configureCmdSysProcAttrWindows (cmd : Cmd) : Cmd :=
  cmd

/-! ## Adapter registration wiring
Embedding of internal/transcription/autoregister.go. The file consists of a
single blank import of the adapters package, documented in the source as
importing the adapter packages "for their init() side effects". -/

/-- The two possible wirings for compiled-in adapter registration: an
import-time `init()` side effect triggered by a blank import, or an explicit
bootstrap in which a fixed list of constructors is invoked by a
`RegisterAll()` call at process start. -/
inductive RegistrationMechanism where
  | importInitSideEffects
  | explicitRegisterAllBootstrap
deriving DecidableEq, Repr

/-- Embedding of autoregister.go: the package wires adapter registration by
blank-importing `scriberr/internal/transcription/adapters` so that the
adapters' `init()` functions run at import time. -/
def autoregisterMechanism : RegistrationMechanism :=
  RegistrationMechanism.importInitSideEffects

/-- Embedding of the import list of autoregister.go: the single blank import
through which registration side effects are triggered. -/
def autoregisterBlankImports : List String :=
  ["scriberr/internal/transcription/adapters"]

/-! ## Config snapshot
Embedding of the config package (`Config`, `Environment` and
`(*Config).Snapshot`). A Go `*Config` receiver is modelled as
`Option Config`, with `none` for the nil pointer. -/

/-- Embedding of `config.Environment`: host capabilities detected at
startup. -/
structure Environment where
  os : String
  arch : String
  supportsNvidiaStack : Bool
  supportsMPS : Bool
  defaultWhisperDevice : String
deriving DecidableEq, Repr

/-- Embedding of `config.Config`: all configuration values. -/
structure Config where
  port : String
  host : String
  databasePath : String
  jwtSecret : String
  uploadDir : String
  uvPath : String
  whisperXEnv : String
  environment : Environment
deriving DecidableEq, Repr

/-- Values of the `map[string]any` produced by `Snapshot`: strings, booleans
and nested maps, modelled as association lists. -/
inductive SnapVal where
  | str (v : String)
  | bool (v : Bool)
  | map (entries : List (String × SnapVal))

/-- Embedding of `(*Config).Snapshot`: on a nil receiver it returns the empty
map; otherwise it returns the map of configuration values with the nested
environment map, in the order the Go literal lists them. -/
def Config.snapshot : Option Config → List (String × SnapVal)
  | none => []
  | some c =>
    [("port", SnapVal.str c.port),
     ("host", SnapVal.str c.host),
     ("database_path", SnapVal.str c.databasePath),
     ("jwt_secret", SnapVal.str c.jwtSecret),
     ("upload_dir", SnapVal.str c.uploadDir),
     ("uv_path", SnapVal.str c.uvPath),
     ("whisperx_env", SnapVal.str c.whisperXEnv),
     ("environment", SnapVal.map
       [("os", SnapVal.str c.environment.os),
        ("arch", SnapVal.str c.environment.arch),
        ("supports_nvidia_stack", SnapVal.bool c.environment.supportsNvidiaStack),
        ("supports_mps", SnapVal.bool c.environment.supportsMPS),
        ("default_whisper_device", SnapVal.str c.environment.defaultWhisperDevice)])]

/-! ## Static asset route
Embedding of `serveAsset` from `SetupStaticRoutes` in the web package. The
handler first rejects any wildcard `filepath` parameter containing the
substring ".." with 404 and no body; otherwise it sets the immutable asset
cache header and delegates to the embedded-filesystem handler, which is
modelled as an arbitrary function from the parameter to a response. -/

/-- An HTTP response as observed by the static-route tests: status code,
optional body content, optional Cache-Control header. -/
structure HTTPResponse where
  status : Nat
  body : Option String
  cacheControl : Option String
deriving DecidableEq, Repr

/-- A character list contains two consecutive dots. -/
def hasDotDotChars : List Char → Bool
  | '.' :: '.' :: _ => true
  | _ :: rest => hasDotDotChars rest
  | [] => false

/-- Embedding of Go's `strings.Contains(s, "..")`: a string contains the
substring ".." exactly when its character list has two consecutive dots. -/
def containsDotDot (s : String) : Bool :=
  hasDotDotChars s.data

/-- Cache-Control value for hashed assets, from the web package constants. -/
def cacheAssets : String := "public, max-age=31536000, immutable"

/-- Embedding of the `serveAsset` closure in `SetupStaticRoutes`: if the
wildcard `filepath` parameter contains "..", respond 404 with no body and no
headers; otherwise set the asset cache header and delegate to the embedded
file-server handler. -/
def serveAsset (assetsHandler : String → HTTPResponse) (filepath : String) :
    HTTPResponse :=
  if containsDotDot filepath then
    { status := 404, body := none, cacheControl := none }
  else
    { assetsHandler filepath with cacheControl := some cacheAssets }

/-! ## Lifecycle logging
Embedding of pkg/logger/logger.go. A zap field is key plus value; `zap.Any`
payloads and `error` arguments are abstracted to strings (an `error` is
`Option String`, `nil` being `none`). A call emits one log entry; the state
of the logger is the list of entries emitted so far, and the value returned
to the caller is `Unit`, matching the Go functions' empty result list. -/

/-- Values carried by a zap field in this embedding: string, int, duration
(nanoseconds), an opaque `zap.Any` payload, or the skip field produced by
`zap.Skip()`. -/
inductive FieldValue where
  | str (v : String)
  | int (v : Int)
  | dur (nanos : Int)
  | anyv (payload : String)
  | skip
deriving DecidableEq, Repr

/-- Embedding of a zap `Field`: a key and a value. -/
structure Field where
  key : String
  value : FieldValue
deriving DecidableEq, Repr

/-- Embedding of `logger.String`. -/
def stringField (key value : String) : Field :=
  { key := key, value := FieldValue.str value }

/-- Embedding of `logger.Int`. -/
def intField (key : String) (value : Int) : Field :=
  { key := key, value := FieldValue.int value }

/-- Embedding of `logger.Duration`. -/
def durationField (key : String) (value : Int) : Field :=
  { key := key, value := FieldValue.dur value }

/-- Embedding of `logger.Any`. -/
def anyField (key : String) (payload : String) : Field :=
  { key := key, value := FieldValue.anyv payload }

/-- Embedding of `logger.ErrorField`: a nil error becomes `zap.Skip()`, a
non-nil error becomes `zap.Error(err)` with key "error". -/
def errorField : Option String → Field
  | none => { key := "", value := FieldValue.skip }
  | some e => { key := "error", value := FieldValue.str e }

/-- One element of a Go `...any` field list as passed to `Info`, `Debug`,
`Warn` or `Error`: either an already-built zap `Field`, a string key, or
some other value (abstracted to its payload). -/
inductive LogArg where
  | field (f : Field)
  | str (s : String)
  | other (payload : String)
deriving DecidableEq, Repr

/-- The payload `zap.Any` records for an arbitrary argument, abstracting the
zap library encoding to a string. -/
def argAnyPayload : LogArg → String
  | LogArg.field f => f.key
  | LogArg.str s => s
  | LogArg.other p => p

/-- Embedding of `normalizeFields`, carrying the running index `i` used by
the `fmt.Sprintf("arg_%d", i)` fallback key: a `Field` passes through, a
string key consumes the following argument as a `zap.Any` value (or maps to
the `"<missing>"` marker when it is last), and any other value gets an
index-derived key. -/
def normalizeFieldsFrom : Nat → List LogArg → List Field
  | _, [] => []
  | i, LogArg.field f :: rest => f :: normalizeFieldsFrom (i + 1) rest
  | i, LogArg.str k :: v :: rest =>
    { key := k, value := FieldValue.anyv (argAnyPayload v) } ::
      normalizeFieldsFrom (i + 2) rest
  | _, [LogArg.str k] => [{ key := k, value := FieldValue.str "<missing>" }]
  | i, LogArg.other p :: rest =>
    { key := "arg_" ++ toString i, value := FieldValue.anyv p } ::
      normalizeFieldsFrom (i + 1) rest

/-- Embedding of `normalizeFields` as called (index starts at 0). -/
def normalizeFields (args : List LogArg) : List Field :=
  normalizeFieldsFrom 0 args

/-- Embedding of `fieldsToAny`: wraps each field back into the `any` list. -/
def fieldsToAny (fields : List Field) : List LogArg :=
  fields.map LogArg.field

/-- Zap log levels used by the logger package. -/
inductive LogLevel where
  | debug
  | info
  | warn
  | error
deriving DecidableEq, Repr

/-- One emitted log entry: level, message, normalized fields. -/
structure LogEntry where
  level : LogLevel
  msg : String
  fields : List Field
deriving DecidableEq, Repr

/-- Embedding of `logger.Info`: emits one INFO entry with normalized
fields. -/
def logInfo (msg : String) (fields : List LogArg) : LogEntry :=
  { level := LogLevel.info, msg := msg, fields := normalizeFields fields }

/-- Embedding of `logger.Debug`: emits one DEBUG entry with normalized
fields. -/
def logDebug (msg : String) (fields : List LogArg) : LogEntry :=
  { level := LogLevel.debug, msg := msg, fields := normalizeFields fields }

/-- Embedding of `logger.Error`: emits one ERROR entry with normalized
fields. -/
def logError (msg : String) (fields : List LogArg) : LogEntry :=
  { level := LogLevel.error, msg := msg, fields := normalizeFields fields }

/-- Embedding of `logger.JobStarted`: `Info("Transcription started", ...)`
with job id, file, model and params fields. -/
def JobStarted (jobID filename model params : String) : LogEntry :=
  logInfo "Transcription started"
    [LogArg.field (stringField "job_id" jobID),
     LogArg.field (stringField "file" filename),
     LogArg.field (stringField "model" model),
     LogArg.field (anyField "params" params)]

/-- Embedding of `logger.JobCompleted`: `Info("Transcription completed",
...)` with job id, duration and result fields. -/
def JobCompleted (jobID : String) (duration : Int) (result : String) :
    LogEntry :=
  logInfo "Transcription completed"
    [LogArg.field (stringField "job_id" jobID),
     LogArg.field (durationField "duration" duration),
     LogArg.field (anyField "result" result)]

/-- Embedding of `logger.JobFailed`: `Error("Transcription failed", ...)`
with job id, duration and error fields. -/
def JobFailed (jobID : String) (duration : Int) (err : Option String) :
    LogEntry :=
  logError "Transcription failed"
    [LogArg.field (stringField "job_id" jobID),
     LogArg.field (durationField "duration" duration),
     LogArg.field (errorField err)]

/-- Embedding of `logger.WorkerOperation`: `Debug("Worker operation", ...)`
on the base fields worker id, job id and operation, followed by the caller's
extra details. -/
def WorkerOperation (workerID : Int) (jobID operation : String)
    (details : List LogArg) : LogEntry :=
  logDebug "Worker operation"
    (fieldsToAny
      [intField "worker_id" workerID,
       stringField "job_id" jobID,
       stringField "operation" operation] ++ details)

/-- Emitting a log entry: the logger state grows by one entry and the value
returned to the caller is `()`, the embedding of a Go function with no
results. -/
def emitLog (st : List LogEntry) (e : LogEntry) : List LogEntry × Unit :=
  (st ++ [e], ())

/-- A `JobStarted` call as the caller observes it: state change plus
returned value. -/
def runJobStarted (st : List LogEntry) (jobID filename model params : String) :
    List LogEntry × Unit :=
  emitLog st (JobStarted jobID filename model params)

/-- A `JobCompleted` call as the caller observes it. -/
def runJobCompleted (st : List LogEntry) (jobID : String) (duration : Int)
    (result : String) : List LogEntry × Unit :=
  emitLog st (JobCompleted jobID duration result)

/-- A `JobFailed` call as the caller observes it. -/
def runJobFailed (st : List LogEntry) (jobID : String) (duration : Int)
    (err : Option String) : List LogEntry × Unit :=
  emitLog st (JobFailed jobID duration err)

/-- A `WorkerOperation` call as the caller observes it. -/
def runWorkerOperation (st : List LogEntry) (workerID : Int)
    (jobID operation : String) (details : List LogArg) :
    List LogEntry × Unit :=
  emitLog st (WorkerOperation workerID jobID operation details)

/-! ## Engine core modelled from the specification
The cancellation controller, merge coordinator, progress tracker and worker
claim logic are described in the specification but their code is not part of
the repository snapshot; they are modelled from the specification text
below. -/

/-- Job status, from the specification's data model:
Queued, Running, Succeeded, Failed, Killed. -/
inductive JobStatus where
  | queued
  | running
  | succeeded
  | failed
  | killed
deriving DecidableEq, Repr

/-- Modelled from the spec: a job record as the cancellation controller sees
it — id, status, progress percent, and the transient process/group handle of
a Running job. -/
structure Job where
  id : Nat
  status : JobStatus
  progress : Nat
  handle : Option Nat
deriving DecidableEq, Repr

/-- Result of `Kill(jobID)`: acknowledged, or NotRunning. -/
inductive KillResult where
  | ack
  | notRunning
deriving DecidableEq, Repr

/-- Modelled from the spec: the state the cancellation controller acts on —
the job records plus the list of process-group handles to which the process
supervisor has issued a termination signal. -/
structure EngineState where
  jobs : List Job
  signaled : List Nat
deriving DecidableEq, Repr

/-- Look up a job record by id. -/
def findJob (jobs : List Job) (jobID : Nat) : Option Job :=
  jobs.find? (fun j => j.id == jobID)

/-- Modelled from the spec: the Cancellation Controller's `Kill(jobID)`,
whose code is absent from the snapshot. If the job is not Running it returns
a NotRunning result with no side effects; otherwise it delegates to the
Process Supervisor's `Kill` on the job's active handle, recording the
termination signal. -/
def killJob (st : EngineState) (jobID : Nat) : EngineState × KillResult :=
  match findJob st.jobs jobID with
  | none => (st, KillResult.notRunning)
  | some j =>
    if j.status = JobStatus.running then
      match j.handle with
      | some h => ({ st with signaled := st.signaled ++ [h] }, KillResult.ack)
      | none => (st, KillResult.notRunning)
    else
      (st, KillResult.notRunning)

/-- Modelled from the spec: one track of a multitrack job — its index in the
job's track list, its declared start offset (seconds), the status of its
individual transcription, and its transcript output segments. -/
structure Track where
  idx : Nat
  startOffset : Nat
  status : JobStatus
  output : List String
deriving DecidableEq, Repr

/-- Merge ordering on tracks: by declared start offset, ties broken by track
index. -/
def trackRel (a b : Track) : Prop :=
  a.startOffset < b.startOffset ∨
    (a.startOffset = b.startOffset ∧ a.idx ≤ b.idx)

instance : DecidableRel trackRel := fun a b =>
  show Decidable (a.startOffset < b.startOffset ∨
    (a.startOffset = b.startOffset ∧ a.idx ≤ b.idx)) from inferInstance

instance : IsTotal Track trackRel :=
  ⟨by intro a b; unfold trackRel; omega⟩

instance : IsTrans Track trackRel :=
  ⟨by intro a b c hab hbc; unfold trackRel at hab hbc ⊢; omega⟩

/-- Modelled from the spec: the Merge Coordinator's merge routine, whose
code is absent from the snapshot. It runs once every constituent track has
individually succeeded, and orders the tracks by declared start offset with
ties broken by track index; when some track has not succeeded the merge is
not performed. -/
def mergeTracks (tracks : List Track) : Option (List Track) :=
  if tracks.all (fun t => t.status == JobStatus.succeeded) then
    some (List.insertionSort trackRel tracks)
  else
    none

/-- Modelled from the spec: the single merged transcript — the concatenation
of all track outputs in merge order. -/
def mergeTranscript (tracks : List Track) : Option (List String) :=
  (mergeTracks tracks).map (fun sorted => sorted.flatMap Track.output)

/-- Decimal digit parse over characters: `none` as soon as a non-digit is
seen, otherwise the accumulated value. -/
def parseDigits : Nat → List Char → Option Nat
  | acc, [] => some acc
  | acc, c :: rest =>
    if c.isDigit then parseDigits (acc * 10 + (c.toNat - '0'.toNat)) rest
    else none

/-- Modelled from the spec: parsing one line of the adapter's progress
stream, whose code is absent from the snapshot — a decimal percentage,
clamped to 100; an empty or non-numeric line is malformed and yields
`none`. -/
def parseProgressLine (line : String) : Option Nat :=
  match line.data with
  | [] => none
  | cs => (parseDigits 0 cs).map (fun n => min n 100)

/-- Modelled from the spec: the Progress Tracker applying one stream line to
the job's progress field, whose code is absent from the snapshot — a
malformed line is skipped, and an update is applied monotonically, never
lowering progress. -/
def applyProgressLine (cur : Nat) (line : String) : Nat :=
  match parseProgressLine line with
  | none => cur
  | some p => max cur p

/-- Modelled from the spec: the Progress Tracker consuming a finite stream
of lines, updating the progress field line by line. -/
def trackProgress (cur : Nat) (lines : List String) : Nat :=
  lines.foldl applyProgressLine cur

/-- Modelled from the spec: the shared job record the workers race on — the
job's status and, once claimed, the owning worker. -/
structure ClaimState where
  status : JobStatus
  owner : Option Nat
deriving DecidableEq, Repr

/-- Modelled from the spec: a worker's atomic claim, whose code is absent
from the snapshot — a compare-and-swap transition Queued to Running against
the current status, so an attempt on a job no longer Queued fails cleanly
and changes nothing. -/
def tryClaim (st : ClaimState) (worker : Nat) : ClaimState × Bool :=
  if st.status = JobStatus.queued then
    ({ status := JobStatus.running, owner := some worker }, true)
  else
    (st, false)

/-- Modelled from the spec: N workers racing to claim the same job. Because
each claim is an atomic compare-and-swap on shared state, any interleaving
is a sequence of claim attempts; the list gives the order in which the
attempts reach the shared record. -/
def raceClaims (st : ClaimState) (workers : List Nat) :
    ClaimState × List Bool :=
  match workers with
  | [] => (st, [])
  | w :: ws =>
    let step := tryClaim st w
    let rest := raceClaims step.1 ws
    (rest.1, step.2 :: rest.2)

/-! ## Theorems -/

/-- C1: On POSIX build targets (linux and darwin), `ConfigureCmdSysProcAttr`
applied to any command sets the command's `SysProcAttr` so that `Setpgid` is
true, placing the spawned process in its own process group. -/
theorem posixConfigureSetsSetpgid (cmd : Cmd) :
    (configureCmdSysProcAttrLinux cmd).sysProcAttr
        = some { setpgid := true } ∧
    (configureCmdSysProcAttrDarwin cmd).sysProcAttr
        = some { setpgid := true } :=
  ⟨rfl, rfl⟩

/-- C2: On the windows build target, `ConfigureCmdSysProcAttr` leaves every
command entirely unchanged: no `SysProcAttr` or other field is set. -/
theorem windowsConfigureLeavesCmdUnchanged (cmd : Cmd) :
    configureCmdSysProcAttrWindows cmd = cmd :=
  rfl

/-- C3 counterexample: adapter registration is not performed by an explicit
`RegisterAll()` bootstrap — autoregister.go wires it through import-time
`init()` side effects of a blank import, so the claimed mechanism is refuted
on the code. -/
theorem registrationNotExplicitBootstrap :
    autoregisterMechanism ≠ RegistrationMechanism.explicitRegisterAllBootstrap := by
  decide

/-- C3 amended: adapter registration is wired at import time — the
transcription package blank-imports the adapters package so the adapters'
`init()` registrations run once when the package is loaded, and there is no
explicit `RegisterAll()` bootstrap. -/
theorem registrationViaImportInitSideEffects :
    autoregisterMechanism = RegistrationMechanism.importInitSideEffects ∧
    autoregisterBlankImports = ["scriberr/internal/transcription/adapters"] :=
  ⟨rfl, rfl⟩

/-- C4: every job-lifecycle logging operation (`JobStarted`, `JobCompleted`,
`JobFailed`, `WorkerOperation`) is fire-and-forget: for all inputs the value
returned to the caller is `()` — no error is surfaced — and the only effect
is appending exactly one log entry to the logger state, so a logging call
can never fail the job that invokes it. -/
theorem jobLifecycleLoggingFireAndForget (st : List LogEntry)
    (jobID filename model params : String) (duration : Int) (result : String)
    (err : Option String) (workerID : Int) (operation : String)
    (details : List LogArg) :
    runJobStarted st jobID filename model params
      = (st ++ [JobStarted jobID filename model params], ()) ∧
    runJobCompleted st jobID duration result
      = (st ++ [JobCompleted jobID duration result], ()) ∧
    runJobFailed st jobID duration err
      = (st ++ [JobFailed jobID duration err], ()) ∧
    runWorkerOperation st workerID jobID operation details
      = (st ++ [WorkerOperation workerID jobID operation details], ()) :=
  ⟨rfl, rfl, rfl, rfl⟩

/-- C5: for every job whose status is not Running, `Kill(jobID)` returns a
NotRunning result and leaves the state completely unchanged; only for a
Running job does it delegate to the Process Supervisor's kill on the job's
active handle. -/
theorem killNotRunningNoSideEffects (st : EngineState) (jobID : Nat)
    (j : Job) (hfind : findJob st.jobs jobID = some j) :
    (j.status ≠ JobStatus.running →
      killJob st jobID = (st, KillResult.notRunning)) ∧
    (∀ h, j.status = JobStatus.running → j.handle = some h →
      killJob st jobID
        = ({ st with signaled := st.signaled ++ [h] }, KillResult.ack)) := by
  constructor
  · intro hns
    simp [killJob, hfind, hns]
  · intro h hr hh
    simp [killJob, hfind, hr, hh]

/-- C5 witness: killing a still-Queued job returns NotRunning and changes
nothing. -/
theorem killNotRunningWitness :
    killJob
        { jobs := [{ id := 1, status := JobStatus.queued, progress := 0,
                     handle := none }],
          signaled := [] } 1
      = ({ jobs := [{ id := 1, status := JobStatus.queued, progress := 0,
                      handle := none }],
           signaled := [] }, KillResult.notRunning) :=
  (killNotRunningNoSideEffects
      { jobs := [{ id := 1, status := JobStatus.queued, progress := 0,
                   handle := none }],
        signaled := [] } 1
      { id := 1, status := JobStatus.queued, progress := 0, handle := none }
      (by decide)).1 (by decide)

/-- C6: for every multitrack job whose tracks have all succeeded, the merge
routine consumes all track outputs (the merge order is a permutation of the
tracks) and produces a single transcript totally ordered by declared start
offset with ties broken by track index; in particular, for tracks A, B, C
with offsets 0s, 10s, 10s, C is ordered after B, and the order is
deterministic. -/
theorem mergeOrderedByOffsetThenIndex (tracks : List Track)
    (hall : ∀ t ∈ tracks, t.status = JobStatus.succeeded) :
    ∃ sorted, mergeTracks tracks = some sorted ∧
      sorted.Perm tracks ∧
      List.Sorted trackRel sorted ∧
      mergeTranscript tracks = some (sorted.flatMap Track.output) ∧
      mergeTracks
          [{ idx := 0, startOffset := 0, status := JobStatus.succeeded,
             output := ["a"] },
           { idx := 2, startOffset := 10, status := JobStatus.succeeded,
             output := ["c"] },
           { idx := 1, startOffset := 10, status := JobStatus.succeeded,
             output := ["b"] }]
        = some
          [{ idx := 0, startOffset := 0, status := JobStatus.succeeded,
             output := ["a"] },
           { idx := 1, startOffset := 10, status := JobStatus.succeeded,
             output := ["b"] },
           { idx := 2, startOffset := 10, status := JobStatus.succeeded,
             output := ["c"] }] := by
  have hcond : tracks.all (fun t => t.status == JobStatus.succeeded) = true := by
    rw [List.all_eq_true]
    intro t ht
    simp [hall t ht]
  refine ⟨List.insertionSort trackRel tracks, ?_, ?_, ?_, ?_, ?_⟩
  · simp [mergeTracks, hcond]
  · exact List.perm_insertionSort trackRel tracks
  · exact List.sorted_insertionSort trackRel tracks
  · simp [mergeTranscript, mergeTracks, hcond]
  · decide

/-- C6 witness: the merge of the three succeeded tracks A, B, C with offsets
0, 10, 10 exists, is a sorted permutation, and orders C after B. -/
theorem mergeOrderedWitness :
    ∃ sorted, mergeTracks
        [{ idx := 0, startOffset := 0, status := JobStatus.succeeded,
           output := ["a"] },
         { idx := 2, startOffset := 10, status := JobStatus.succeeded,
           output := ["c"] },
         { idx := 1, startOffset := 10, status := JobStatus.succeeded,
           output := ["b"] }] = some sorted ∧
      sorted.Perm
        [{ idx := 0, startOffset := 0, status := JobStatus.succeeded,
           output := ["a"] },
         { idx := 2, startOffset := 10, status := JobStatus.succeeded,
           output := ["c"] },
         { idx := 1, startOffset := 10, status := JobStatus.succeeded,
           output := ["b"] }] ∧
      List.Sorted trackRel sorted ∧
      mergeTranscript
        [{ idx := 0, startOffset := 0, status := JobStatus.succeeded,
           output := ["a"] },
         { idx := 2, startOffset := 10, status := JobStatus.succeeded,
           output := ["c"] },
         { idx := 1, startOffset := 10, status := JobStatus.succeeded,
           output := ["b"] }] = some (sorted.flatMap Track.output) ∧
      mergeTracks
          [{ idx := 0, startOffset := 0, status := JobStatus.succeeded,
             output := ["a"] },
           { idx := 2, startOffset := 10, status := JobStatus.succeeded,
             output := ["c"] },
           { idx := 1, startOffset := 10, status := JobStatus.succeeded,
             output := ["b"] }]
        = some
          [{ idx := 0, startOffset := 0, status := JobStatus.succeeded,
             output := ["a"] },
           { idx := 1, startOffset := 10, status := JobStatus.succeeded,
             output := ["b"] },
           { idx := 2, startOffset := 10, status := JobStatus.succeeded,
             output := ["c"] }] :=
  mergeOrderedByOffsetThenIndex
    [{ idx := 0, startOffset := 0, status := JobStatus.succeeded,
       output := ["a"] },
     { idx := 2, startOffset := 10, status := JobStatus.succeeded,
       output := ["c"] },
     { idx := 1, startOffset := 10, status := JobStatus.succeeded,
       output := ["b"] }]
    (by decide)

/-- One progress line never lowers the progress field. -/
theorem applyProgressLine_le (cur : Nat) (line : String) :
    cur ≤ applyProgressLine cur line := by
  unfold applyProgressLine
  split
  · exact Nat.le_refl cur
  · exact le_max_left cur _

/-- Folding the progress stream never lowers the progress field. -/
theorem trackProgress_le (lines : List String) :
    ∀ cur : Nat, cur ≤ trackProgress cur lines := by
  induction lines with
  | nil => intro cur; exact Nat.le_refl cur
  | cons l ls ih =>
    intro cur
    exact le_trans (applyProgressLine_le cur l)
      (ih (applyProgressLine cur l))

/-- C7: the progress tracker never applies an update that lowers the job's
progress field — one line and a whole stream of lines are both monotone
non-decreasing — and a malformed line is skipped, leaving progress exactly
unchanged rather than failing the job. -/
theorem progressMonotoneNonDecreasing (cur : Nat) (line : String)
    (lines : List String) :
    cur ≤ applyProgressLine cur line ∧
    (parseProgressLine line = none → applyProgressLine cur line = cur) ∧
    cur ≤ trackProgress cur lines := by
  refine ⟨applyProgressLine_le cur line, ?_, trackProgress_le lines cur⟩
  intro h
  simp [applyProgressLine, h]

/-- C7 witness: the malformed line "abc" leaves progress 50 unchanged, and
the stream ["30", "80"] never lowers it. -/
theorem progressMonotoneWitness :
    applyProgressLine 50 "abc" = 50 ∧ 50 ≤ trackProgress 50 ["30", "80"] :=
  ⟨(progressMonotoneNonDecreasing 50 "abc" ["30", "80"]).2.1 (by decide),
   (progressMonotoneNonDecreasing 50 "abc" ["30", "80"]).2.2⟩

/-- A claim attempt on a job no longer Queued fails cleanly and changes
nothing, for every remaining worker. -/
theorem raceClaims_notQueued (workers : List Nat) :
    ∀ st : ClaimState, st.status ≠ JobStatus.queued →
      raceClaims st workers = (st, List.replicate workers.length false) := by
  induction workers with
  | nil => intro st h; rfl
  | cons w ws ih =>
    intro st h
    unfold raceClaims tryClaim
    rw [if_neg h]
    simp [ih st h, List.replicate_succ]

/-- C8: when N workers race to claim the same Queued job, in every arrival
order the first compare-and-swap Queued to Running succeeds and every other
attempt fails cleanly: the job ends Running, owned by exactly the winning
worker, and exactly one attempt reports success. -/
theorem claimRaceExactlyOneWinner (st : ClaimState)
    (hq : st.status = JobStatus.queued) (w : Nat) (ws : List Nat) :
    raceClaims st (w :: ws)
      = ({ status := JobStatus.running, owner := some w },
         true :: List.replicate ws.length false) ∧
    (true :: List.replicate ws.length false).count true = 1 := by
  constructor
  · unfold raceClaims tryClaim
    rw [if_pos hq]
    simp [raceClaims_notQueued ws
      { status := JobStatus.running, owner := some w } (by simp)]
  · simp [List.count_cons, List.count_replicate]

/-- C8 witness: three workers racing on a Queued job — worker 0 arrives
first and wins, workers 1 and 2 fail cleanly. -/
theorem claimRaceWitness :
    raceClaims { status := JobStatus.queued, owner := none } [0, 1, 2]
      = ({ status := JobStatus.running, owner := some 0 },
         [true, false, false]) :=
  (claimRaceExactlyOneWinner { status := JobStatus.queued, owner := none }
    rfl 0 [1, 2]).1

/-- C9: every request to the assets route whose wildcard filepath parameter
contains the substring ".." is answered 404 with no body and no cache
header, whatever the embedded file server would have served — traversal
attempts never reach the embedded file server. -/
theorem assetTraversalBlocked (assetsHandler : String → HTTPResponse)
    (filepath : String) (h : containsDotDot filepath = true) :
    serveAsset assetsHandler filepath
      = { status := 404, body := none, cacheControl := none } := by
  unfold serveAsset
  rw [if_pos h]

/-- C9 witness: the traversal request "../index.html" is answered 404 with
no body even though the embedded handler would serve content. -/
theorem assetTraversalWitness :
    serveAsset
        (fun _ => { status := 200, body := some "asset",
                    cacheControl := none })
        "../index.html"
      = { status := 404, body := none, cacheControl := none } :=
  assetTraversalBlocked
    (fun _ => { status := 200, body := some "asset", cacheControl := none })
    "../index.html" (by decide)

/-- C10: `Snapshot` on a nil `*Config` receiver is total and returns the
empty map instead of dereferencing the nil pointer. -/
theorem snapshotNilReceiverEmpty : Config.snapshot none = [] :=
  rfl

end Scriberr

